import Mathlib

/-!
Shallow embedding of the kuberesolver endpoint watch-and-resolve engine
(sercand/kuberesolver): target parsing (`parseResolverTarget`,
`splitServicePortNamespace`), namespace defaulting (`getCurrentNamespaceOrDefault`
and the parse step of `kubeBuilder.Build`), port resolution
(`extractPortFromSubset`), address construction (`makeAddresses`), the event
handler (`handleEndpointsUpdate`), and the legacy watcher differencer
(`Watcher.Next`).  File reads and Go panics are made explicit: the namespace
file is an `Option String` parameter and functions that can panic return
`Except Crash`.
-/

namespace Kuberesolver

/-- Go `strconv.Itoa` applied to the port value (base-10, minus sign for
negatives), identical to `toString` on `Int`. -/
def itoa (i : Int) : String := toString i

/-- Go `bytealg.IndexByteString(s, c) >= 0` (the colon test used by
`net.JoinHostPort`), as a character scan. -/
def stringContains (s : String) (c : Char) : Bool := s.toList.any (fun x => x == c)

/-- Go `net.JoinHostPort`: `host:port`, with the host bracketed when it contains
a colon (IPv6 literals). -/
def joinHostPort (host port : String) : String :=
  if stringContains host ':' then "[" ++ host ++ "]:" ++ port else host ++ ":" ++ port

/-- Splits a character list at its LAST colon (Go `strings.LastIndexByte(s, ':')`
followed by slicing); `none` when there is no colon. -/
def lastColonSplit : List Char → Option (List Char × List Char)
  | [] => none
  | c :: rest =>
    match lastColonSplit rest with
    | some (a, b) => some (c :: a, b)
    | none => if c == ':' then some ([], rest) else none

/-- Splits a character list at its FIRST dot, the step function of
`strings.SplitN(s, ".", 3)`; `none` when there is no dot. -/
def firstDotSplit : List Char → Option (List Char × List Char)
  | [] => none
  | c :: rest =>
    if c == '.' then some ([], rest)
    else
      match firstDotSplit rest with
      | some (a, b) => some (c :: a, b)
      | none => none

/-- Go `net/url` `validOptionalPort`: empty, or a colon followed by zero or more
decimal digits. -/
def validOptionalPort (p : String) : Bool :=
  match p.toList with
  | [] => true
  | ':' :: rest => rest.all Char.isDigit
  | _ => false

/-- Bracket stripping inside Go `net/url` `splitHostPort`: drop one leading `[`
and one trailing `]` when both are present. -/
def stripBrackets (s : String) : String :=
  let l := s.toList
  if l.head? = some '[' ∧ l.getLast? = some ']' then String.mk (l.drop 1).dropLast else s

/-- Go `net/url` `splitHostPort`: split `host:port` at the last colon when the
suffix is a valid optional port, then strip brackets from the host. -/
def splitHostPort (hostPort : String) : String × String :=
  match lastColonSplit hostPort.toList with
  | some (h, p) =>
    if validOptionalPort (String.mk (':' :: p)) then
      (stripBrackets (String.mk h), String.mk p)
    else (stripBrackets hostPort, "")
  | none => (stripBrackets hostPort, "")

/-- Accumulates decimal digits; `none` at the first non-digit character,
matching `strconv.ParseInt` in base 10. -/
def digitsValAux : List Char → Nat → Option Nat
  | [], acc => some acc
  | c :: rest, acc =>
    if c.isDigit then digitsValAux rest (acc * 10 + (c.toNat - 48)) else none

/-- Numeric value of a non-empty all-digit character list; `none` otherwise. -/
def digitsVal : List Char → Option Nat
  | [] => none
  | l => digitsValAux l 0

/-- Go `strconv.Atoi` (= `ParseInt(s, 10, 0)` on a 64-bit platform): optional
sign, at least one digit, nothing else, and the value must fit a signed 64-bit
integer. -/
def atoi (s : String) : Option Int :=
  match s.toList with
  | '+' :: rest => (digitsVal rest).bind (fun n => if n ≤ 2 ^ 63 - 1 then some (Int.ofNat n) else none)
  | '-' :: rest => (digitsVal rest).bind (fun n => if n ≤ 2 ^ 63 then some (-(Int.ofNat n : Int)) else none)
  | l => (digitsVal l).bind (fun n => if n ≤ 2 ^ 63 - 1 then some (Int.ofNat n) else none)

/-- Whether `strconv.Atoi` succeeds (`err == nil` in the Go code). -/
def atoiOk (s : String) : Bool := (atoi s).isSome

/-- Go `strings.TrimPrefix(s, "/")` as used by `resolver.Target.Endpoint()`. -/
def trimLeadingSlash (s : String) : String :=
  match s.toList with
  | '/' :: rest => String.mk rest
  | _ => s

/-- Kubernetes `corev1.EndpointPort`: a named, numbered port. -/
structure EndpointPort where
  name : String
  port : Int
  deriving Repr, DecidableEq

/-- Kubernetes `corev1.EndpointAddress`; only the IP is consumed by the resolver. -/
structure EndpointAddress where
  ip : String
  deriving Repr, DecidableEq

/-- Kubernetes `corev1.EndpointSubset`: ready and not-ready addresses sharing a
port list. -/
structure EndpointSubset where
  addresses : List EndpointAddress
  notReadyAddresses : List EndpointAddress
  ports : List EndpointPort
  deriving Repr, DecidableEq

/-- Kubernetes `corev1.Endpoints`: the watched resource, a list of subsets. -/
structure Endpoints where
  subsets : List EndpointSubset
  deriving Repr, DecidableEq

/-- balancer.go `targetInfo`: the parsed target descriptor. -/
structure targetInfo where
  serviceName : String
  serviceNamespace : String
  port : String
  resolveByPortName : Bool
  useFirstPort : Bool
  deriving Repr, DecidableEq

/-- The parts of `net/url.URL` consumed by `parseResolverTarget`; `opq` models
`URL.Opaque`. -/
structure URL where
  host : String
  path : String
  opq : String
  deriving Repr, DecidableEq

/-- grpc `resolver.Target`, which wraps the parsed URL. -/
structure Target where
  url : URL
  deriving Repr, DecidableEq

/-- Go `URL.Port()`: the valid numeric port suffix of `Host`, or empty. -/
def URL.port (u : URL) : String := (splitHostPort u.host).2

/-- Go `URL.Hostname()`: `Host` without the port suffix and without brackets. -/
def URL.hostname (u : URL) : String := (splitHostPort u.host).1

/-- grpc `resolver.Target.Endpoint()`: `URL.Path`, falling back to `URL.Opaque`
when the path is empty, with one leading slash trimmed. -/
def Target.endpoint (t : Target) : String :=
  trimLeadingSlash (if t.url.path = "" then t.url.opq else t.url.path)

/-- balancer.go `splitServicePortNamespace`: split the port off at the last
colon, then take the first two dot-separated parts as service and namespace.
Returns `(service, port, namespace)`. -/
def splitServicePortNamespace (hpn : String) : String × String × String :=
  let sp :=
    match lastColonSplit hpn.toList with
    | some (a, b) => (String.mk a, String.mk b)
    | none => (hpn, "")
  match firstDotSplit sp.1.toList with
  | none => (sp.1, sp.2, "")
  | some (s1, rest) =>
    match firstDotSplit rest with
    | none => (String.mk s1, sp.2, String.mk rest)
    | some (s2, _) => (String.mk s1, sp.2, String.mk s2)

/-- The `(service, port, namespace)` triple computed at the top of
`parseResolverTarget`, following its three URL-shape branches. -/
def parseServicePortNs (t : Target) : String × String × String :=
  if t.url.host = "" then
    splitServicePortNamespace t.endpoint
  else if t.url.port = "" ∧ t.endpoint ≠ "" then
    let spn := splitServicePortNamespace t.endpoint
    (spn.1, spn.2.1, t.url.hostname)
  else
    splitServicePortNamespace t.url.host

/-- Error returned when the target has no service name (the URL rendering in the
Go error message is abstracted away). -/
def serviceErr : String := "target must specify a service"

/-- The flag assignment at the end of `parseResolverTarget`, as the pair
`(resolveByPortName, useFirstPort)`: empty port means use-first-port, a port
`strconv.Atoi` rejects means resolve-by-name, otherwise both flags are false. -/
def portFlags (port : String) : Bool × Bool :=
  if port = "" then (false, true)
  else if atoiOk port = false then (true, false)
  else (false, false)

/-- balancer.go `parseResolverTarget`: split the URL into service, port and
namespace, fail when the service is empty, otherwise assemble the descriptor. -/
def parseResolverTarget (target : Target) : Except String targetInfo :=
  let spn := parseServicePortNs target
  if spn.1 = "" then .error serviceErr
  else
    .ok { serviceName := spn.1
          serviceNamespace := spn.2.2
          port := spn.2.1
          resolveByPortName := (portFlags spn.2.1).1
          useFirstPort := (portFlags spn.2.1).2 }

/-- Path constant `kubernetesNamespaceFile` of the in-cluster namespace file. -/
def kubernetesNamespaceFile : String := "/var/run/secrets/kubernetes.io/serviceaccount/namespace"

/-- The fixed fallback namespace constant `defaultNamespace`. -/
def defaultNamespace : String := "default"

/-- `getCurrentNamespaceOrDefault`, with the result of reading the namespace
file passed in explicitly: `none` models a read error (fall back to
`defaultNamespace`), `some contents` the raw file contents. -/
def getCurrentNamespaceOrDefault (fileContents : Option String) : String :=
  match fileContents with
  | none => defaultNamespace
  | some ns => ns

/-- The target-descriptor part of `kubeBuilder.Build`: parse the target and, on
success, default an empty namespace; a parse error is returned to the caller
before any resolver or informer is constructed. -/
def buildTargetInfo (target : Target) (fileContents : Option String) : Except String targetInfo :=
  match parseResolverTarget target with
  | .error e => .error e
  | .ok ti =>
    if ti.serviceNamespace = "" then
      .ok { ti with serviceNamespace := getCurrentNamespaceOrDefault fileContents }
    else .ok ti

/-- A Go runtime panic reachable in the resolver's event path. -/
inductive Crash where
  | indexOutOfRange
  | nilDeref
  deriving Repr, DecidableEq

/-- balancer.go `extractPortFromSubset`: first-port under `useFirstPort`
(`subset.Ports[0]` panics on an empty list), name lookup under
`resolveByPortName`, then the fallthrough that returns `target.port` verbatim
when non-empty, and finally `subset.Ports[0]` again. -/
def extractPortFromSubset (t : targetInfo) (subset : EndpointSubset) : Except Crash String :=
  if t.useFirstPort then
    match subset.ports with
    | [] => .error Crash.indexOutOfRange
    | p :: _ => .ok (itoa p.port)
  else
    match (if t.resolveByPortName then subset.ports.find? (fun p => p.name == t.port) else none) with
    | some p => .ok (itoa p.port)
    | none =>
      if t.port = "" then
        match subset.ports with
        | [] => .error Crash.indexOutOfRange
        | p :: _ => .ok (itoa p.port)
      else .ok t.port

/-- A grpc `resolver.Address` as built by `makeAddresses`. -/
structure Address where
  addr : String
  serverName : String
  deriving Repr, DecidableEq

/-- The subset loop of `makeAddresses`, with panic propagation: each subset's
port is resolved, then every ready address is joined with it. -/
def makeAddressesLoop (t : targetInfo) : List EndpointSubset → Except Crash (List Address)
  | [] => .ok []
  | subset :: rest =>
    match extractPortFromSubset t subset with
    | .error c => .error c
    | .ok port =>
      match makeAddressesLoop t rest with
      | .error c => .error c
      | .ok tail =>
        .ok ((subset.addresses.map (fun a =>
          { addr := joinHostPort a.ip port
            serverName := t.serviceName ++ "." ++ t.serviceNamespace })) ++ tail)

/-- balancer.go `makeAddresses`; `none` models the nil `*corev1.Endpoints` the
delete handler passes, for which the function returns an empty list. -/
def makeAddresses (t : targetInfo) (e : Option Endpoints) : Except Crash (List Address) :=
  match e with
  | none => .ok []
  | some ep => makeAddressesLoop t ep.subsets

/-- Observable outcome of one `handleEndpointsUpdate` call: the list pushed to
`cc.NewAddress` (if any), the gauge values set (endpoint groups, addresses), and
the panic that aborted the call (if any). -/
structure UpdateResult where
  published : Option (List Address)
  gauges : Option (Nat × Nat)
  crashed : Option Crash
  deriving Repr, DecidableEq

/-- balancer.go `handleEndpointsUpdate`: build the address list (a panic there
aborts the call), call `cc.NewAddress` only when the list is non-empty, then set
the two gauges — where `len(e.Subsets)` dereferences the nil pointer on the
delete path before either gauge is set. -/
def handleEndpointsUpdate (t : targetInfo) (e : Option Endpoints) : UpdateResult :=
  match makeAddresses t e with
  | .error c => { published := none, gauges := none, crashed := some c }
  | .ok addrs =>
    let pub := if addrs.length > 0 then some addrs else none
    match e with
    | none => { published := pub, gauges := none, crashed := some Crash.nilDeref }
    | some ep => { published := pub, gauges := some (ep.subsets.length, addrs.length), crashed := none }

/-- Port selection of the legacy `Watcher.Next` for one subset; the empty string
marks "nothing selected yet". -/
def watcherSubsetPort (t : targetInfo) (subset : EndpointSubset) : String :=
  if t.useFirstPort then
    match subset.ports with
    | [] => ""
    | p :: _ => itoa p.port
  else if t.resolveByPortName then
    match subset.ports.find? (fun p => p.name == t.port) with
    | some p => itoa p.port
    | none => ""
  else t.port

/-- Endpoint strings contributed by one subset in `Watcher.Next`: an empty port
falls back to the first listed port, and a subset with no ports at all is
skipped (`continue`). -/
def watcherSubsetEndpoints (t : targetInfo) (subset : EndpointSubset) : List String :=
  let port := watcherSubsetPort t subset
  if port = "" then
    match subset.ports with
    | [] => []
    | p :: _ => subset.addresses.map (fun a => joinHostPort a.ip (itoa p.port))
  else subset.addresses.map (fun a => joinHostPort a.ip port)

/-- The `updatedEndpoints` key set computed by `Watcher.Next` from the event's
subsets (a Go map used as a set: unordered keys). -/
def watcherUpdatedEndpoints (t : targetInfo) (subsets : List EndpointSubset) : Finset String :=
  ((subsets.map (watcherSubsetEndpoints t)).flatten).toFinset

/-- Outcome of one `Watcher.Next` application: the ADDED keys, the DELETED keys,
and the replaced `w.endpoints` state. -/
structure NextResult where
  added : Finset String
  removed : Finset String
  endpoints : Finset String
  deriving DecidableEq

/-- The snapshot differencer of `Watcher.Next`: resolve the event's subsets into
a key set, emit Add updates for keys not previously present and Delete updates
for previous keys now absent, and replace the state wholesale. -/
def watcherNextStep (t : targetInfo) (old : Finset String) (subsets : List EndpointSubset) : NextResult :=
  let updated := watcherUpdatedEndpoints t subsets
  { added := updated \ old, removed := old \ updated, endpoints := updated }

/-- Key set of a published address list (addresses keyed by their string). -/
def addrKeys (l : List Address) : Finset String := (l.map Address.addr).toFinset

/-- The differencer's ADDED side between two published lists. -/
def diffAdded (prev cur : List Address) : Finset String := addrKeys cur \ addrKeys prev

/-- The differencer's REMOVED side between two published lists. -/
def diffRemoved (prev cur : List Address) : Finset String := addrKeys prev \ addrKeys cur

/-- C1 (code bug, failing input): for the target `service.ns:dns`
(`resolveByPortName = true`) and a group whose ports are `[{http, 8080}]` — no
port named `dns` — `extractPortFromSubset` falls through and returns the
literal name `"dns"`, and `makeAddresses` emits the non-numeric address
`"1.1.1.1:dns"`, which `handleEndpointsUpdate` publishes; resolution neither
fails for the group nor skips it, contradicting the claim. -/
theorem C1_name_miss_emits_port_name :
    extractPortFromSubset
        { serviceName := "service", serviceNamespace := "ns", port := "dns",
          resolveByPortName := true, useFirstPort := false }
        { addresses := [{ ip := "1.1.1.1" }], notReadyAddresses := [],
          ports := [{ name := "http", port := 8080 }] } = .ok "dns" ∧
    makeAddresses
        { serviceName := "service", serviceNamespace := "ns", port := "dns",
          resolveByPortName := true, useFirstPort := false }
        (some { subsets := [{ addresses := [{ ip := "1.1.1.1" }], notReadyAddresses := [],
                              ports := [{ name := "http", port := 8080 }] }] })
      = .ok [{ addr := "1.1.1.1:dns", serverName := "service.ns" }] ∧
    (handleEndpointsUpdate
        { serviceName := "service", serviceNamespace := "ns", port := "dns",
          resolveByPortName := true, useFirstPort := false }
        (some { subsets := [{ addresses := [{ ip := "1.1.1.1" }], notReadyAddresses := [],
                              ports := [{ name := "http", port := 8080 }] }] })).published
      = some [{ addr := "1.1.1.1:dns", serverName := "service.ns" }] :=
  ⟨rfl, rfl, rfl⟩

/-- C2 (counterexample): after a state in which the non-empty list
`["1.1.1.1:80", "2.2.2.2:80"]` was published, processing the Delete event (the
nil `Endpoints`) publishes nothing at all — `published = none` — rather than
publishing the empty address list as the claim states. -/
theorem C2_counterexample :
    (handleEndpointsUpdate
        { serviceName := "service", serviceNamespace := "ns", port := "80",
          resolveByPortName := false, useFirstPort := false }
        (some { subsets := [{ addresses := [{ ip := "1.1.1.1" }, { ip := "2.2.2.2" }],
                              notReadyAddresses := [],
                              ports := [{ name := "http", port := 80 }] }] })).published
      = some [{ addr := "1.1.1.1:80", serverName := "service.ns" },
              { addr := "2.2.2.2:80", serverName := "service.ns" }] ∧
    (handleEndpointsUpdate
        { serviceName := "service", serviceNamespace := "ns", port := "80",
          resolveByPortName := false, useFirstPort := false } none).published = none :=
  ⟨rfl, rfl⟩

/-- C2 (amended): processing a Delete event never publishes anything to the
consumer: the address list computed for the deleted resource is empty and the
resolver only calls the consumer with non-empty lists, so the empty list is
never delivered. -/
theorem C2_amended_delete_publishes_nothing (t : Kuberesolver.targetInfo) :
    makeAddresses t none = .ok [] ∧ (handleEndpointsUpdate t none).published = none :=
  ⟨rfl, rfl⟩

/-- C3 (code bug, failing input): for a `useFirstPort` target and a group with
an empty port list, `extractPortFromSubset` evaluates `subset.Ports[0]` and
panics with an index-out-of-range instead of returning an error and skipping
the group; the panic aborts the whole `handleEndpointsUpdate` call. -/
theorem C3_empty_ports_index_out_of_range :
    extractPortFromSubset
        { serviceName := "service", serviceNamespace := "ns", port := "",
          resolveByPortName := false, useFirstPort := true }
        { addresses := [{ ip := "1.1.1.1" }], notReadyAddresses := [], ports := [] }
      = .error Crash.indexOutOfRange ∧
    handleEndpointsUpdate
        { serviceName := "service", serviceNamespace := "ns", port := "",
          resolveByPortName := false, useFirstPort := true }
        (some { subsets := [{ addresses := [{ ip := "1.1.1.1" }], notReadyAddresses := [],
                              ports := [] }] })
      = { published := none, gauges := none, crashed := some Crash.indexOutOfRange } :=
  ⟨rfl, rfl⟩

/-- C4 (counterexample): delivering the identical snapshot twice publishes both
times: the second `handleEndpointsUpdate` publishes the same non-empty list
even though the diff against the previously materialized list is empty on both
sides, so "publishes only if the diff is non-empty" fails on the code. -/
theorem C4_counterexample :
    (handleEndpointsUpdate
        { serviceName := "svc", serviceNamespace := "prod", port := "8080",
          resolveByPortName := false, useFirstPort := false }
        (some { subsets := [{ addresses := [{ ip := "10.0.0.1" }], notReadyAddresses := [],
                              ports := [{ name := "http", port := 8080 }] }] })).published
      = some [{ addr := "10.0.0.1:8080", serverName := "svc.prod" }] ∧
    diffAdded [{ addr := "10.0.0.1:8080", serverName := "svc.prod" }]
              [{ addr := "10.0.0.1:8080", serverName := "svc.prod" }] = ∅ ∧
    diffRemoved [{ addr := "10.0.0.1:8080", serverName := "svc.prod" }]
                [{ addr := "10.0.0.1:8080", serverName := "svc.prod" }] = ∅ := by
  refine ⟨rfl, ?_, ?_⟩ <;> simp [diffAdded, diffRemoved]

/-- C4 (amended): the resolver publishes exactly when the address list computed
from the incoming event is non-empty, and a publish always carries that
complete freshly computed list; no diff against previously published state is
consulted, so an unchanged snapshot is published again. -/
theorem C4_amended_publish_iff_nonempty (t : Kuberesolver.targetInfo)
    (e : Option Endpoints) (addrs : List Address)
    (h : makeAddresses t e = .ok addrs) :
    (handleEndpointsUpdate t e).published =
      if addrs.length > 0 then some addrs else none := by
  cases e with
  | none =>
    simp [makeAddresses] at h
    subst h
    rfl
  | some ep =>
    have h' : makeAddressesLoop t ep.subsets = .ok addrs := by
      simpa [makeAddresses] using h
    simp [handleEndpointsUpdate, makeAddresses, h']

/-- C4 witness: at a concrete target and snapshot, the amended statement
evaluates: the computed one-element list is published. -/
theorem C4_amended_publish_iff_nonempty_witness :
    (handleEndpointsUpdate
        { serviceName := "api", serviceNamespace := "dev", port := "9000",
          resolveByPortName := false, useFirstPort := false }
        (some { subsets := [{ addresses := [{ ip := "10.1.1.1" }], notReadyAddresses := [],
                              ports := [{ name := "grpc", port := 9000 }] }] })).published =
      if ([{ addr := "10.1.1.1:9000", serverName := "api.dev" }] : List Address).length > 0
      then some [{ addr := "10.1.1.1:9000", serverName := "api.dev" }] else none :=
  C4_amended_publish_iff_nonempty
    { serviceName := "api", serviceNamespace := "dev", port := "9000",
      resolveByPortName := false, useFirstPort := false }
    (some { subsets := [{ addresses := [{ ip := "10.1.1.1" }], notReadyAddresses := [],
                          ports := [{ name := "grpc", port := 9000 }] }] })
    [{ addr := "10.1.1.1:9000", serverName := "api.dev" }] rfl

/-- C5 (confirmed): the differencer of `Watcher.Next` is idempotent — applying
the same snapshot twice in a row from any starting materialized set yields an
empty ADDED set and an empty REMOVED set on the second application and leaves
the materialized set equal to the result of the first application. -/
theorem C5_differencer_idempotent (t : Kuberesolver.targetInfo) (s : Finset String)
    (subsets : List EndpointSubset) :
    (watcherNextStep t (watcherNextStep t s subsets).endpoints subsets).added = ∅ ∧
    (watcherNextStep t (watcherNextStep t s subsets).endpoints subsets).removed = ∅ ∧
    (watcherNextStep t (watcherNextStep t s subsets).endpoints subsets).endpoints =
      (watcherNextStep t s subsets).endpoints := by
  refine ⟨?_, ?_, rfl⟩ <;> simp [watcherNextStep]

/-- C6 (code bug): on the Deleted-event path `handleEndpointsUpdate` receives a
nil `Endpoints` pointer; it publishes nothing, but `len(e.Subsets)` then
dereferences the nil pointer, so the call panics and neither gauge is set —
contradicting the claim that the call completes and sets both gauges to 0. -/
theorem C6_delete_path_nil_dereference (t : Kuberesolver.targetInfo) :
    handleEndpointsUpdate t none =
      { published := none, gauges := none, crashed := some Crash.nilDeref } :=
  rfl

/-- C7 (counterexample): for the target `service:dns` and the group with ports
`[{http, 8080}, {dns, 53}]`, port resolution does select 53, but a ready IPv6
address `::1` is emitted as `net.JoinHostPort`'s bracketed `"[::1]:53"`, not as
the claimed `"::1:53"`. -/
theorem C7_counterexample :
    makeAddresses
        { serviceName := "service", serviceNamespace := "ns", port := "dns",
          resolveByPortName := true, useFirstPort := false }
        (some { subsets := [{ addresses := [{ ip := "::1" }], notReadyAddresses := [],
                              ports := [{ name := "http", port := 8080 },
                                        { name := "dns", port := 53 }] }] })
      = .ok [{ addr := "[::1]:53", serverName := "service.ns" }] ∧
    ("[::1]:53" : String) ≠ "::1" ++ ":53" :=
  ⟨rfl, by decide⟩

/-- C7 (amended): for the target `service:dns` and any group whose ports are
`[{http, 8080}, {dns, 53}]`, port resolution selects 53, every ready address
`a` resolves to `joinHostPort a "53"`, and that string is `a ++ ":53"` exactly
when `a` contains no colon (IPv6 literals are bracketed instead). -/
theorem C7_amended_dns_port_selected (addrs nr : List EndpointAddress) :
    extractPortFromSubset
        { serviceName := "service", serviceNamespace := "ns", port := "dns",
          resolveByPortName := true, useFirstPort := false }
        { addresses := addrs, notReadyAddresses := nr,
          ports := [{ name := "http", port := 8080 }, { name := "dns", port := 53 }] }
      = .ok "53" ∧
    makeAddresses
        { serviceName := "service", serviceNamespace := "ns", port := "dns",
          resolveByPortName := true, useFirstPort := false }
        (some { subsets := [{ addresses := addrs, notReadyAddresses := nr,
                              ports := [{ name := "http", port := 8080 },
                                        { name := "dns", port := 53 }] }] })
      = .ok (addrs.map (fun a =>
          { addr := joinHostPort a.ip "53", serverName := "service.ns" })) ∧
    ∀ a : String, stringContains a ':' = false → joinHostPort a "53" = a ++ ":53" := by
  refine ⟨rfl, ?_, ?_⟩
  · simp [makeAddresses, makeAddressesLoop, extractPortFromSubset,
      show itoa 53 = "53" from rfl]
  · intro a ha
    simp [joinHostPort, ha, String.append_assoc]

/-- C7 witness: the amended statement evaluated at one ready IPv4-style address,
whose emitted address string is `1.2.3.4:53`. -/
theorem C7_amended_dns_port_selected_witness :
    joinHostPort "1.2.3.4" "53" = "1.2.3.4" ++ ":53" :=
  (C7_amended_dns_port_selected [{ ip := "1.2.3.4" }] []).2.2 "1.2.3.4" (by decide)

/-- C8 (confirmed): when the parsed target has an empty namespace, `Build`
fills it with `getCurrentNamespaceOrDefault` — the namespace file's contents
when readable, the fixed string "default" otherwise — and a target with an
explicit namespace is returned unchanged. -/
theorem C8_namespace_defaulting (target : Target) (file : Option String)
    (ti : Kuberesolver.targetInfo) (h : parseResolverTarget target = .ok ti) :
    (ti.serviceNamespace = "" →
      buildTargetInfo target file =
        .ok { ti with serviceNamespace := getCurrentNamespaceOrDefault file } ∧
      (file = none → getCurrentNamespaceOrDefault file = "default") ∧
      (∀ s, file = some s → getCurrentNamespaceOrDefault file = s)) ∧
    (ti.serviceNamespace ≠ "" → buildTargetInfo target file = .ok ti) := by
  constructor
  · intro hns
    refine ⟨?_, ?_, ?_⟩
    · simp [buildTargetInfo, h, hns]
    · intro hf
      simp [getCurrentNamespaceOrDefault, hf, defaultNamespace]
    · intro s hf
      simp [getCurrentNamespaceOrDefault, hf]
  · intro hns
    simp [buildTargetInfo, h, hns]

/-- C8 witness: the target `svc` (no namespace) built with a readable namespace
file containing `team-a` resolves into namespace `team-a`; with an unreadable
file it resolves into `default`. -/
theorem C8_namespace_defaulting_witness :
    buildTargetInfo { url := { host := "", path := "svc", opq := "" } } (some "team-a") =
      .ok { serviceName := "svc", serviceNamespace := "team-a", port := "",
            resolveByPortName := false, useFirstPort := true } ∧
    buildTargetInfo { url := { host := "", path := "svc", opq := "" } } none =
      .ok { serviceName := "svc", serviceNamespace := "default", port := "",
            resolveByPortName := false, useFirstPort := true } :=
  ⟨((C8_namespace_defaulting { url := { host := "", path := "svc", opq := "" } }
      (some "team-a")
      { serviceName := "svc", serviceNamespace := "", port := "",
        resolveByPortName := false, useFirstPort := true } rfl).1 rfl).1,
   ((C8_namespace_defaulting { url := { host := "", path := "svc", opq := "" } }
      none
      { serviceName := "svc", serviceNamespace := "", port := "",
        resolveByPortName := false, useFirstPort := true } rfl).1 rfl).1⟩

/-- C9 (confirmed): a target whose parsed service-name component is empty makes
`parseResolverTarget` return an error, and `Build` (modelled up to its
descriptor phase) returns that same error synchronously, before any resolver
state is constructed; a target whose parsed service name is non-empty always
parses successfully. -/
theorem C9_empty_service_rejected (target : Target) (file : Option String) :
    ((parseServicePortNs target).1 = "" →
      parseResolverTarget target = .error serviceErr ∧
      buildTargetInfo target file = .error serviceErr) ∧
    ((parseServicePortNs target).1 ≠ "" →
      ∃ ti, parseResolverTarget target = .ok ti ∧
        ti.serviceName = (parseServicePortNs target).1) := by
  constructor
  · intro h
    have hp : parseResolverTarget target = .error serviceErr := by
      simp [parseResolverTarget, h]
    exact ⟨hp, by simp [buildTargetInfo, hp]⟩
  · intro h
    refine ⟨{ serviceName := (parseServicePortNs target).1,
              serviceNamespace := (parseServicePortNs target).2.2,
              port := (parseServicePortNs target).2.1,
              resolveByPortName := (portFlags (parseServicePortNs target).2.1).1,
              useFirstPort := (portFlags (parseServicePortNs target).2.1).2 }, ?_, rfl⟩
    simp [parseResolverTarget, h]

/-- C9 witness: the bare path `/` parses to an empty service and is rejected,
while `web.prod:9090` parses successfully. -/
theorem C9_empty_service_rejected_witness :
    parseResolverTarget { url := { host := "", path := "/", opq := "" } } = .error serviceErr ∧
    ∃ ti, parseResolverTarget { url := { host := "", path := "web.prod:9090", opq := "" } } = .ok ti ∧
      ti.serviceName =
        (parseServicePortNs { url := { host := "", path := "web.prod:9090", opq := "" } }).1 :=
  ⟨((C9_empty_service_rejected { url := { host := "", path := "/", opq := "" } } none).1 rfl).1,
   (C9_empty_service_rejected { url := { host := "", path := "web.prod:9090", opq := "" } }
      none).2 (by decide)⟩

/-- Helper case analysis of the flag assignment `portFlags`: the pair is one of
`(false, true)`, `(true, false)`, `(false, false)`, decided by the port string. -/
theorem portFlags_cases (p : String) :
    ((portFlags p).2 && (portFlags p).1) = false ∧
    (p = "" → (portFlags p).2 = true ∧ (portFlags p).1 = false) ∧
    (p ≠ "" → atoiOk p = false → (portFlags p).1 = true ∧ (portFlags p).2 = false) ∧
    (atoiOk p = true → (portFlags p).2 = false ∧ (portFlags p).1 = false) := by
  by_cases hp : p = ""
  · subst hp
    exact ⟨rfl, fun _ => ⟨rfl, rfl⟩, fun hne _ => absurd rfl hne, fun ha => absurd ha (by decide)⟩
  · by_cases ha : atoiOk p = false
    · have hf : portFlags p = (true, false) := by simp [portFlags, hp, ha]
      exact ⟨by simp [hf], fun h => absurd h hp, fun _ _ => by simp [hf],
        fun h => by simp [ha] at h⟩
    · have hf : portFlags p = (false, false) := by simp [portFlags, hp, ha]
      exact ⟨by simp [hf], fun h => absurd h hp, fun _ hc => absurd hc ha,
        fun _ => by simp [hf]⟩

/-- C10 (confirmed): for every successfully parsed target the two policy flags
are mutually exclusive and are a function of the (verbatim kept) port segment
alone: an empty port sets `useFirstPort`, a non-empty port rejected by
`strconv.Atoi` sets `resolveByPortName`, and an `Atoi`-accepted port leaves
both flags false. -/
theorem C10_port_flags (target : Target) (ti : Kuberesolver.targetInfo)
    (h : parseResolverTarget target = .ok ti) :
    (ti.useFirstPort && ti.resolveByPortName) = false ∧
    ti.port = (parseServicePortNs target).2.1 ∧
    (ti.port = "" → ti.useFirstPort = true ∧ ti.resolveByPortName = false) ∧
    (ti.port ≠ "" → atoiOk ti.port = false →
      ti.resolveByPortName = true ∧ ti.useFirstPort = false) ∧
    (atoiOk ti.port = true → ti.useFirstPort = false ∧ ti.resolveByPortName = false) := by
  unfold parseResolverTarget at h
  by_cases hs : (parseServicePortNs target).1 = ""
  · simp [hs] at h
  · simp [hs] at h
    subst h
    have hmain := portFlags_cases (parseServicePortNs target).2.1
    exact ⟨hmain.1, rfl, hmain.2.1, hmain.2.2.1, hmain.2.2.2⟩

/-- C10 witness: the target `db.infra:5432` parses with the numeric port kept
verbatim and both policy flags false. -/
theorem C10_port_flags_witness :
    ("5432" : String) =
      (parseServicePortNs { url := { host := "", path := "db.infra:5432", opq := "" } }).2.1 ∧
    ({ serviceName := "db", serviceNamespace := "infra", port := "5432",
       resolveByPortName := false, useFirstPort := false } : Kuberesolver.targetInfo).useFirstPort
      = false :=
  ⟨(C10_port_flags { url := { host := "", path := "db.infra:5432", opq := "" } }
      { serviceName := "db", serviceNamespace := "infra", port := "5432",
        resolveByPortName := false, useFirstPort := false } rfl).2.1,
   ((C10_port_flags { url := { host := "", path := "db.infra:5432", opq := "" } }
      { serviceName := "db", serviceNamespace := "infra", port := "5432",
        resolveByPortName := false, useFirstPort := false } rfl).2.2.2.2 rfl).1⟩

end Kuberesolver
